import Mathlib

/-!
Verification of the face-recognition pipeline.

Shallow embedding of the recognition pipeline of this repository:
`recongnition.py` (threaded recognizer: frame handoff, inference worker,
LED actuator debounce, Excel audit log with cooldown), `recognition.py`
(synchronous multi-face recognizer: coordinate clamping, crop guards,
`SystemExit` on request failure) and `registration.py` (detector worker
returning an error-flagged result on failure).

Numeric conventions: pixel coordinates are integers (Python ints after
`int(...)`); timestamps are modelled as integers (the code compares float
seconds only by subtraction and ordering); confidences are modelled in
hundredths (the code compares `conf >= 0.70`, modelled as `70 ≤ conf`).
-/

namespace FaceRec

/-- A detection prediction returned by the remote detect stage
(`predictions[i]` with fields x_min, y_min, x_max, y_max). -/
structure Pred where
  x_min : Int
  y_min : Int
  x_max : Int
  y_max : Int
deriving Repr, DecidableEq

/-- A recognition prediction returned by the remote recognize stage
(`predictions[0]` with fields userid, confidence).  Confidence is in
hundredths. -/
structure RecPred where
  userid : String
  confidence : Int
deriving Repr, DecidableEq

/-- One entry of `results` in `recongnition.py`:
`{bbox: (x_min, y_min, x_max, y_max), name, confidence}`. -/
structure FaceResult where
  bbox : Int × Int × Int × Int
  name : String
  confidence : Int
deriving Repr, DecidableEq

/-! ## FrameHandoff

`recongnition.py` hands frames from the render loop to the worker through
the globals `latest_frame` and `new_frame_available` (lines 23-26,
128-131, 228-229). -/

/-- The handoff slot: `latest` models `latest_frame`, `avail` models
`new_frame_available`. -/
structure Handoff (α : Type) where
  latest : Option α
  avail : Bool
deriving Repr, DecidableEq

/-- The producer side (main loop lines 228-229):
`latest_frame = frame; new_frame_available = True`. -/
def offer {α : Type} (f : α) (_s : Handoff α) : Handoff α :=
  ⟨some f, true⟩

/-- The consumer side (worker lines 129-131): if
`latest_frame is not None and new_frame_available` then clear the flag and
copy the frame, else yield nothing. -/
def take {α : Type} (s : Handoff α) : Option α × Handoff α :=
  match s.latest, s.avail with
  | some f, true => (some f, ⟨some f, false⟩)
  | _, _ => (none, s)

/-- A sequence of offers with no interleaved take. -/
def offerAll {α : Type} (s : Handoff α) (fs : List α) : Handoff α :=
  fs.foldl (fun t f => offer f t) s

lemma offerAll_eq_last {α : Type} :
    ∀ (fs : List α) (s : Handoff α), fs ≠ [] →
      offerAll s fs = ⟨fs.getLast?, true⟩ := by
  intro fs
  induction fs with
  | nil => intro s h; exact absurd rfl h
  | cons x xs ih =>
    intro s _
    cases xs with
    | nil => rfl
    | cons y ys =>
      have h2 : (y :: ys : List α) ≠ [] := by simp
      calc offerAll s (x :: y :: ys)
          = offerAll (offer x s) (y :: ys) := rfl
        _ = ⟨(y :: ys).getLast?, true⟩ := ih (offer x s) h2
        _ = ⟨(x :: y :: ys).getLast?, true⟩ := by
              rw [List.getLast?_cons_cons]

/-- Claim C1: for every sequence of frame offers with no interleaved take,
the consumer's next take returns exactly the last offered frame, and
consuming clears the slot, so a second take without a new offer yields
nothing — no frame is delivered twice. -/
theorem handoff_latest_wins {α : Type} (s : Handoff α) (fs : List α)
    (h : fs ≠ []) :
    (take (offerAll s fs)).1 = fs.getLast? ∧
    (take (take (offerAll s fs)).2).1 = none := by
  rw [offerAll_eq_last fs s h]
  rcases hlast : fs.getLast? with _ | f
  · exact absurd (List.getLast?_eq_none_iff.mp hlast) h
  · exact ⟨rfl, rfl⟩

/-- Witness for C1 at a concrete offer sequence. -/
theorem handoff_latest_wins_witness :
    (take (offerAll (⟨none, false⟩ : Handoff Nat) [1, 2, 3])).1 =
      ([1, 2, 3] : List Nat).getLast? ∧
    (take (take (offerAll (⟨none, false⟩ : Handoff Nat) [1, 2, 3])).2).1 =
      none :=
  handoff_latest_wins ⟨none, false⟩ [1, 2, 3] (by decide)

/-! ## LED actuator

`control_led` in `recongnition.py` lines 110-117: send a datagram only when
the desired value differs from `current_led_state`; on a successful send
update the stored state; on a send error leave it unchanged. -/

/-- `control_led`: the first component is the new stored state
(`current_led_state`), the second is whether a send was attempted.
`sendOk` models whether `sock.sendto` completes without raising. -/
def control_led (cur : Option Bool) (desired : Bool) (sendOk : Bool) :
    Option Bool × Bool :=
  if cur ≠ some desired then
    if sendOk then (some desired, true) else (cur, true)
  else (cur, false)

/-- Folding `control_led` (all sends succeeding) over a sequence of desired
values, counting the sends. -/
def ledRun (cur : Option Bool) : List Bool → Option Bool × Nat
  | [] => (cur, 0)
  | d :: ds =>
    let r := control_led cur d true
    let rest := ledRun r.1 ds
    (rest.1, (if r.2 then 1 else 0) + rest.2)

lemma ledRun_const (b : Bool) :
    ∀ n : Nat, ledRun (some b) (List.replicate n b) = (some b, 0) := by
  intro n
  induction n with
  | zero => rfl
  | succ m ih =>
    simp only [List.replicate_succ, ledRun, control_led]
    simp [ih]

/-- Claim C3: a send occurs iff the derived value differs from the stored
last-sent value; on a send the stored value becomes the sent value; and N
consecutive evaluations with unchanged value produce zero sends beyond the
first (none at all when the stored value already matches). -/
theorem actuator_debounce (cur : Option Bool) (b : Bool) (n : Nat) :
    ((control_led cur b true).2 = true ↔ cur ≠ some b) ∧
    ((control_led cur b true).2 = true → (control_led cur b true).1 = some b) ∧
    (ledRun cur (List.replicate n b)).2 = (if cur = some b then 0 else min n 1) := by
  refine ⟨?_, ?_, ?_⟩
  · by_cases h : cur = some b <;> simp [control_led, h]
  · by_cases h : cur = some b <;> simp [control_led, h]
  · by_cases h : cur = some b
    · subst h
      rw [ledRun_const]
      simp
    · cases n with
      | zero => simp [ledRun, h]
      | succ m =>
        simp only [List.replicate_succ, ledRun, control_led, if_neg (by simp [h] : ¬¬cur ≠ some b)]
        simp [h, ledRun_const]

/-- Claim C9: when the datagram send raises, the stored state is left
unchanged, so the next evaluation deriving the same value attempts the
send again; the stored value is updated only on a send that completes. -/
theorem led_send_failure_retry (cur : Option Bool) (d : Bool)
    (h : cur ≠ some d) :
    (control_led cur d false).1 = cur ∧
    (control_led cur d false).2 = true ∧
    (control_led (control_led cur d false).1 d true).2 = true ∧
    (control_led (control_led cur d false).1 d true).1 = some d := by
  refine ⟨?_, ?_, ?_, ?_⟩ <;> simp [control_led, h]

/-- Witness for C9: starting from an unset LED state, a failed ON send
leaves the state unset and the next evaluation sends ON. -/
theorem led_send_failure_retry_witness :
    (control_led none true false).1 = none ∧
    (control_led none true false).2 = true ∧
    (control_led (control_led none true false).1 true true).2 = true ∧
    (control_led (control_led none true false).1 true true).1 = some true :=
  led_send_failure_retry none true (by decide)

/-! ## Audit-log policy

`recongnition.py` lines 123-126 and 188-202: per result, log when the name
differs from `last_logged_name` or `now - last_log_time >= LOG_COOLDOWN`;
on a write set `last_logged_name = name` and `last_log_time = now`.  `now`
is read once per cycle (line 188). -/

/-- `LOG_COOLDOWN = 3.0` seconds (timestamps modelled as integers). -/
def LOG_COOLDOWN : Int := 3

/-- One evaluation of the logging gate for one result.  The state is
`(last_logged_name, last_log_time)`; the second component of the output is
whether an audit row is written. -/
def logStep (st : Option String × Int) (now : Int) (name : String) :
    (Option String × Int) × Bool :=
  if st.1 ≠ some name ∨ LOG_COOLDOWN ≤ now - st.2 then
    ((some name, now), true)
  else (st, false)

/-- The per-cycle loop over `results` (lines 189-202), with `now` fixed,
collecting the rows written. -/
def logRun (st : Option String × Int) (now : Int) :
    List FaceResult → (Option String × Int) × List (String × Int)
  | [] => (st, [])
  | r :: rs =>
    let step := logStep st now r.name
    let rest := logRun step.1 now rs
    (rest.1, (if step.2 then [(r.name, r.confidence)] else []) ++ rest.2)

/-! ## Inference worker cycle

`processing_thread` in `recongnition.py` lines 119-207.  The float resize
arithmetic (lines 136, 150-155) and the numpy crop emptiness test
(lines 157-158) are abstracted as the parameters `scaleBox` (the scaled
bounding box of a prediction) and `cropEmpty` (whether `face.size == 0`).
A remote-call exception is an `Except.error`. -/

/-- A recognize-stage response: transport exception or parsed predictions. -/
abbrev RecResp := Except Unit (List RecPred)

/-- Assembling one entry of `results` (lines 169-180): default name
"Unknown" and confidence 0, overridden by the first recognize prediction. -/
def mkResult (bbox : Int × Int × Int × Int) (recs : List RecPred) :
    FaceResult :=
  match recs with
  | [] => ⟨bbox, "Unknown", 0⟩
  | u :: _ => ⟨bbox, u.userid, u.confidence⟩

/-- The per-box loop (lines 153-180).  A box with an empty crop is skipped
(line 158); a recognize exception propagates and aborts the whole cycle
(caught only at line 204). -/
def processBoxes (scaleBox : Pred → Int × Int × Int × Int)
    (cropEmpty : Pred → Bool) (recResp : Pred → RecResp) :
    List Pred → Except Unit (List FaceResult)
  | [] => .ok []
  | p :: ps =>
    if cropEmpty p then processBoxes scaleBox cropEmpty recResp ps
    else
      match recResp p with
      | .error e => .error e
      | .ok recs =>
        match processBoxes scaleBox cropEmpty recResp ps with
        | .error e => .error e
        | .ok rest => .ok (mkResult (scaleBox p) recs :: rest)

/-- The worker's mutable state: `cached_results`, `current_led_state`,
`last_logged_name`, `last_log_time`. -/
structure WorkerState where
  cachedResults : List FaceResult
  ledState : Option Bool
  lastLoggedName : Option String
  lastLogTime : Int
deriving Repr, DecidableEq

/-- The observable side effects of one cycle: the datagram value sent (if
any) and the audit rows written. -/
structure CycleEffects where
  ledSend : Option Bool
  logWrites : List (String × Int)
deriving Repr, DecidableEq

/-- One iteration of the worker's `try` block (lines 133-205): detect,
per-box recognize, publish `cached_results`, LED update, audit logging.
Any remote-call exception lands in the `except` at line 204, which leaves
every piece of state untouched and produces no side effect. -/
def processCycle (scaleBox : Pred → Int × Int × Int × Int)
    (cropEmpty : Pred → Bool) (detectResp : Except Unit (List Pred))
    (recResp : Pred → RecResp) (sendOk : Bool) (now : Int)
    (st : WorkerState) : WorkerState × CycleEffects :=
  match detectResp with
  | .error _ => (st, ⟨none, []⟩)
  | .ok preds =>
    match processBoxes scaleBox cropEmpty recResp preds with
    | .error _ => (st, ⟨none, []⟩)
    | .ok results =>
      let anyRec := results.any (fun r => r.name ≠ "Unknown")
      let led := control_led st.ledState anyRec sendOk
      let logs := logRun (st.lastLoggedName, st.lastLogTime) now results
      ({ cachedResults := results, ledState := led.1,
         lastLoggedName := logs.1.1, lastLogTime := logs.1.2 },
       ⟨if led.2 ∧ sendOk then some anyRec else none, logs.2⟩)

/-- The inputs one cycle consumes: the frame-dependent geometry, the two
remote responses, whether the datagram send succeeds, and the clock. -/
structure CycleInput where
  scaleBox : Pred → Int × Int × Int × Int
  cropEmpty : Pred → Bool
  detectResp : Except Unit (List Pred)
  recResp : Pred → RecResp
  sendOk : Bool
  now : Int

/-- One cycle driven by a `CycleInput`. -/
def runCycle (i : CycleInput) (st : WorkerState) :
    WorkerState × CycleEffects :=
  processCycle i.scaleBox i.cropEmpty i.detectResp i.recResp i.sendOk i.now st

/-- The worker loop (`while is_running`), folding cycles over the frames it
consumes. -/
def workerRun : WorkerState → List CycleInput → WorkerState
  | st, [] => st
  | st, i :: is => workerRun (runCycle i st).1 is

/-! ## Registration detector worker

`registration.py` lines 35-44: `detect_faces_bytes` converts a transport
exception into `{"error": str(e), "predictions": []}`. -/

/-- What `detector_worker` reads out of a detect response:
`predictions` and `error`. -/
structure DetectOut where
  predictions : List Pred
  error : Option String
deriving Repr, DecidableEq

/-- `detect_faces_bytes`: a successful response carries its predictions and
no error; a `RequestException` yields empty predictions and the error
message. -/
def detect_faces_bytes (resp : Except String (List Pred)) : DetectOut :=
  match resp with
  | .ok ps => ⟨ps, none⟩
  | .error e => ⟨[], some e⟩

/-! ## Multi-face recognizer

`recognition.py`: per-frame synchronous loop.  `clamp` (lines 33-34), the
per-detection crop with padding and guards (lines 86-108), the recognize
call that raises `SystemExit` on a `RequestException` (lines 22-31, 74-75),
and the labeling rule (lines 114-124). -/

/-- `clamp(v, lo, hi) = max(lo, min(hi, v))` (lines 33-34). -/
def clamp (v lo hi : Int) : Int := max lo (min hi v)

/-- `pad = 20` (line 93). -/
def PAD : Int := 20

/-- `MIN_RECOG_CONFIDENCE = 0.70`, in hundredths (line 20). -/
def MIN_RECOG_CONFIDENCE : Int := 70

/-- A rectangle with inclusive integer corners. -/
structure Box where
  x1 : Int
  y1 : Int
  x2 : Int
  y2 : Int
deriving Repr, DecidableEq

/-- The clamped detection box (lines 87-90): each coordinate clamped into
`[0, dimension - 1]`. -/
def boxOf (w h : Int) (d : Pred) : Box :=
  ⟨clamp d.x_min 0 (w - 1), clamp d.y_min 0 (h - 1),
   clamp d.x_max 0 (w - 1), clamp d.y_max 0 (h - 1)⟩

/-- The padded crop region (lines 93-97): the clamped box widened by
`PAD` and clamped again into `[0, dimension - 1]`. -/
def cropRegion (w h : Int) (d : Pred) : Box :=
  ⟨clamp ((boxOf w h d).x1 - PAD) 0 (w - 1),
   clamp ((boxOf w h d).y1 - PAD) 0 (h - 1),
   clamp ((boxOf w h d).x2 + PAD) 0 (w - 1),
   clamp ((boxOf w h d).y2 + PAD) 0 (h - 1)⟩

/-- One detection's crop pipeline (lines 86-108): returns the crop region
passed to the recognize stage, or `none` when the box is skipped — empty
crop (`face_crop.size == 0`), crop narrower or shorter than 40 pixels, or
a failed jpg encode (`encodeOk` models `ok2`). -/
def processDetection (w h : Int) (encodeOk : Bool) (d : Pred) :
    Option Box :=
  if (cropRegion w h d).x2 - (cropRegion w h d).x1 ≤ 0 ∨
      (cropRegion w h d).y2 - (cropRegion w h d).y1 ≤ 0 ∨
      (cropRegion w h d).x2 - (cropRegion w h d).x1 < 40 ∨
      (cropRegion w h d).y2 - (cropRegion w h d).y1 < 40 then none
  else if encodeOk then some (cropRegion w h d)
  else none

/-- The label assigned to one face (lines 114-124): "Unknown" unless the
first recognize prediction has a nonempty userid not equal (lowercased) to
"unknown" and confidence at least the threshold.  (The code formats the
confidence into the displayed label; the model keeps the userid.) -/
def multiFaceLabel (recs : List RecPred) : String :=
  match recs with
  | [] => "Unknown"
  | top :: _ =>
    if top.userid ≠ "" ∧ top.userid.toLower ≠ "unknown" ∧
        MIN_RECOG_CONFIDENCE ≤ top.confidence then
      top.userid
    else "Unknown"

/-- The outcome of processing one frame of `recognition.py`:
`exitProc` models `raise SystemExit(e)`. -/
inductive MultiFaceOutcome where
  | exitProc (msg : String)
  | skipEncode
  | noFace
  | shown (faces : List (Box × String))
deriving Repr, DecidableEq

/-- The per-frame loop over detections (lines 86-129): a skipped box draws
nothing; a recognize `RequestException` raises `SystemExit` inside
`recognize_face_bytes` (line 31), aborting the process. -/
def multiFaceBoxes (w h : Int) (cropEncodeOk : Pred → Bool)
    (recResp : Pred → Except String (List RecPred)) :
    List Pred → Except String (List (Box × String))
  | [] => .ok []
  | d :: ds =>
    match processDetection w h (cropEncodeOk d) d with
    | none => multiFaceBoxes w h cropEncodeOk recResp ds
    | some b =>
      match recResp d with
      | .error e => .error e
      | .ok recs =>
        match multiFaceBoxes w h cropEncodeOk recResp ds with
        | .error e => .error e
        | .ok rest => .ok ((b, multiFaceLabel recs) :: rest)

/-- One frame of `recognition.py`'s main loop (lines 63-131): encode, remote
detect (a `RequestException` raises `SystemExit`, lines 74-75), then the
per-detection crop/recognize/label loop. -/
def multiFaceFrame (w h : Int) (encodeOk : Bool)
    (cropEncodeOk : Pred → Bool)
    (detectResp : Except String (List Pred))
    (recResp : Pred → Except String (List RecPred)) : MultiFaceOutcome :=
  if encodeOk then
    match detectResp with
    | .error e => .exitProc e
    | .ok [] => .noFace
    | .ok preds =>
      match multiFaceBoxes w h cropEncodeOk recResp preds with
      | .error e => .exitProc e
      | .ok faces => .shown faces
  else .skipEncode

/-! ## Alert policy -/

/-- Modelled from the spec: no alert channel exists in the repository's
source; spec section 4.4 (Alert) describes the missing dispatcher — given a
trigger condition over the result set, dispatch iff triggered and
`now - AlertState.last-dispatch > cooldown`, updating `last-dispatch` at
dispatch initiation.  An event is `(now, triggered)`; the function returns
the dispatch timestamps of a trace, threading `last-dispatch`. -/
def alertDispatches (c : Nat) : Nat → List (Nat × Bool) → List Nat
  | _, [] => []
  | last, e :: es =>
    if e.2 = true ∧ last + c < e.1 then
      e.1 :: alertDispatches c e.1 es
    else
      alertDispatches c last es

lemma alertDispatches_chain (c : Nat) :
    ∀ (es : List (Nat × Bool)) (last : Nat),
      List.Chain' (fun a b => a + c < b) (last :: alertDispatches c last es) := by
  intro es
  induction es with
  | nil => intro last; simp [alertDispatches]
  | cons e es ih =>
    intro last
    by_cases h : e.2 = true ∧ last + c < e.1
    · rw [alertDispatches, if_pos h]
      exact List.chain'_cons.mpr ⟨h.2, ih e.1⟩
    · rw [alertDispatches, if_neg h]
      exact ih last

lemma gap_pairwise_length (c hi : Nat) (hc : 0 < c) :
    ∀ (l : List Nat), l.Pairwise (fun a b => a + c < b) →
      (∀ x ∈ l, x ≤ hi) → ∀ lo, (∀ x ∈ l, lo ≤ x) →
      l.length ≤ 1 + (hi - lo) / c := by
  intro l
  induction l with
  | nil => intro _ _ lo _; simp
  | cons x xs ih =>
    intro hpw hhi lo hlo
    rcases List.pairwise_cons.mp hpw with ⟨hgap, hxs⟩
    cases xs with
    | nil => simp
    | cons y ys =>
      have hylist : ∀ z ∈ y :: ys, x + c + 1 ≤ z := fun z hz => hgap z hz
      have hyhi : ∀ z ∈ y :: ys, z ≤ hi := fun z hz =>
        hhi z (List.mem_cons_of_mem x hz)
      have hbound := ih hxs hyhi (x + c + 1) hylist
      have hxc : x + c + 1 ≤ hi :=
        le_trans (hylist y (List.mem_cons_self y ys)) (hyhi y (List.mem_cons_self y ys))
      have hdiv : (hi - (x + c + 1)) / c + 1 = (hi - (x + c + 1) + c) / c :=
        (Nat.add_div_right _ hc).symm
      have harith : hi - (x + c + 1) + c = hi - (x + 1) := by omega
      have hlox : lo ≤ x := hlo x (List.mem_cons_self x _)
      have hmono : hi - (x + 1) ≤ hi - lo := by omega
      calc (x :: y :: ys).length = (y :: ys).length + 1 := rfl
        _ ≤ (1 + (hi - (x + c + 1)) / c) + 1 := by omega
        _ = 1 + ((hi - (x + c + 1)) / c + 1) := by omega
        _ = 1 + (hi - (x + c + 1) + c) / c := by rw [hdiv]
        _ = 1 + (hi - (x + 1)) / c := by rw [harith]
        _ ≤ 1 + (hi - lo) / c := by
              have := Nat.div_le_div_right (c := c) hmono
              omega

/-- Claim C5: over any time window `[lo, lo + W]`, the number of alert
dispatches is at most `1 + W / cooldown`, even when every event triggers;
the last-dispatch timestamp is advanced at dispatch initiation, which is
what spaces consecutive dispatches more than a cooldown apart. -/
theorem alert_rate_bound (c s0 lo W : Nat) (es : List (Nat × Bool))
    (hc : 0 < c) :
    ((alertDispatches c s0 es).filter
      (fun t => decide (lo ≤ t) && decide (t ≤ lo + W))).length ≤
      1 + W / c := by
  have hch : List.Chain' (fun a b => a + c < b) (alertDispatches c s0 es) :=
    (alertDispatches_chain c es s0).tail
  haveI : IsTrans Nat (fun a b => a + c < b) :=
    ⟨fun a b d h1 h2 => by omega⟩
  have hpw : (alertDispatches c s0 es).Pairwise (fun a b => a + c < b) :=
    List.chain'_iff_pairwise.mp hch
  have hpwf := hpw.filter (fun t => decide (lo ≤ t) && decide (t ≤ lo + W))
  have hhi : ∀ x ∈ (alertDispatches c s0 es).filter
      (fun t => decide (lo ≤ t) && decide (t ≤ lo + W)), x ≤ lo + W := by
    intro x hx
    have := (List.mem_filter.mp hx).2
    simp only [Bool.and_eq_true, decide_eq_true_eq] at this
    exact this.2
  have hlo2 : ∀ x ∈ (alertDispatches c s0 es).filter
      (fun t => decide (lo ≤ t) && decide (t ≤ lo + W)), lo ≤ x := by
    intro x hx
    have := (List.mem_filter.mp hx).2
    simp only [Bool.and_eq_true, decide_eq_true_eq] at this
    exact this.1
  have := gap_pairwise_length c (lo + W) hc _ hpwf hhi lo hlo2
  have hsub : lo + W - lo = W := by omega
  rw [hsub] at this
  exact this

/-- Witness for C5 at a concrete continuously-triggering trace. -/
theorem alert_rate_bound_witness :
    ((alertDispatches 3 0 [(1, true), (2, true), (4, true), (5, true),
        (8, true), (9, true), (12, true)]).filter
      (fun t => decide (0 ≤ t) && decide (t ≤ 0 + 10))).length ≤
      1 + 10 / 3 :=
  alert_rate_bound 3 0 0 10 _ (by decide)

/-! ## Render loop effects

`main` in `recongnition.py` lines 224-244: capture, publish to the
handoff, read the cache, draw the cached overlays, present, poll the
keyboard.  The loop body is transcribed as the sequence of effects it
performs. -/

/-- The observable operations of the program. -/
inductive Effect where
  | captureFrame
  | publishFrame
  | readCache
  | drawOverlay
  | presentFrame
  | pollKey
  | remoteDetect
  | remoteRecognize
  | udpSend
  | excelWrite
deriving Repr, DecidableEq

/-- Which operations touch the network (the two remote inference calls and
the actuator datagram). -/
def Effect.isNetwork : Effect → Bool
  | .remoteDetect => true
  | .remoteRecognize => true
  | .udpSend => true
  | _ => false

/-- One pass of the render loop body (lines 224-244): `cap.read()`; if the
frame is `None`, `continue`; else publish it to the handoff, draw each
cached result, `imshow`, `waitKey`. -/
def renderLoopBody (haveFrame : Bool) (cached : List FaceResult) :
    List Effect :=
  if haveFrame then
    [Effect.captureFrame, Effect.publishFrame, Effect.readCache] ++
      cached.map (fun _ => Effect.drawOverlay) ++
      [Effect.presentFrame, Effect.pollKey]
  else [Effect.captureFrame]

/-! ## Shared concrete inputs and remaining claim theorems -/

/-- Identity scaling for concrete cycles. -/
def sbId : Pred → Int × Int × Int × Int :=
  fun p => (p.x_min, p.y_min, p.x_max, p.y_max)

/-- Concrete crop-emptiness map: no crop is empty. -/
def ceNever : Pred → Bool := fun _ => false

/-- A concrete detection box. -/
def pA : Pred := ⟨0, 0, 50, 50⟩

/-- A second, disjoint concrete detection box. -/
def pB : Pred := ⟨60, 0, 110, 50⟩

/-- A recognize stage that raises on box `pA` and succeeds on any other
box. -/
def rrFailA : Pred → RecResp :=
  fun p => if p.x_min = 0 then .error () else .ok [⟨"Amy", 90⟩]

/-- A fresh worker state. -/
def stEmpty : WorkerState := ⟨[], none, none, 0⟩

/-- A worker state holding one previously published result. -/
def stAmy : WorkerState :=
  ⟨[⟨(0, 0, 1, 1), "Amy", 90⟩], some true, some "Amy", 0⟩

/-- A cycle input whose detect call fails. -/
def iDetectErr : CycleInput :=
  ⟨sbId, ceNever, .error (), fun _ => .ok [], true, 5⟩

/-- A result set holding two distinct identities. -/
def rsAB : List FaceResult :=
  [⟨(0, 0, 1, 1), "Amy", 90⟩, ⟨(2, 0, 3, 1), "Bob", 80⟩]

/-- Claim C2, counterexample: in `recognition.py` a failed detect call
raises `SystemExit` and terminates the process, and in `recongnition.py` a
failed detect cycle retains the previously cached non-empty results — no
error-flagged result set with empty results is produced in either. -/
theorem detect_failure_counterexample :
    multiFaceFrame 640 480 true (fun _ => true) (.error "detect timeout")
      (fun _ => .ok []) = .exitProc "detect timeout" ∧
    (processCycle sbId ceNever (.error ()) (fun _ => .ok []) true 5
      stAmy).1.cachedResults = [⟨(0, 0, 1, 1), "Amy", 90⟩] := by
  exact ⟨rfl, rfl⟩

/-- Claim C2, amended: in the threaded recognizer a detect failure aborts
the cycle with the worker state unchanged and the loop proceeds to the
following cycles (it never terminates); the registration detector worker
is the variant that yields an error-flagged output with empty predictions;
the synchronous multi-face recognizer instead terminates on a detect
failure (see the counterexample). -/
theorem detect_failure_amended (st : WorkerState) (i : CycleInput)
    (is : List CycleInput) (e : String) (h : i.detectResp = .error ()) :
    workerRun st (i :: is) = workerRun st is ∧
    (runCycle i st).1 = st ∧
    detect_faces_bytes (.error e) = ⟨[], some e⟩ := by
  have h1 : runCycle i st = (st, ⟨none, []⟩) := by
    rw [runCycle, h]
    rfl
  refine ⟨?_, ?_, rfl⟩
  · show workerRun (runCycle i st).1 is = workerRun st is
    rw [h1]
  · rw [h1]

/-- Witness for the amended C2 at a concrete failing cycle. -/
theorem detect_failure_amended_witness :
    workerRun stEmpty [iDetectErr] = workerRun stEmpty [] ∧
    (runCycle iDetectErr stEmpty).1 = stEmpty ∧
    detect_faces_bytes (.error "timeout") = ⟨[], some "timeout"⟩ :=
  detect_failure_amended stEmpty iDetectErr [] "timeout" rfl

/-- Claim C7: a cycle whose detect stage fails leaves the whole worker
state — cached results, actuator state, log state — unchanged, sends no
actuator datagram and writes no audit row.  (This variant has no alert
channel, so the alert state is vacuously unchanged.) -/
theorem detect_failure_state_unchanged
    (scaleBox : Pred → Int × Int × Int × Int) (cropEmpty : Pred → Bool)
    (recResp : Pred → RecResp) (sendOk : Bool) (now : Int)
    (st : WorkerState) :
    processCycle scaleBox cropEmpty (.error ()) recResp sendOk now st =
      (st, ⟨none, []⟩) :=
  rfl

lemma logRun_no_write (st : Option String × Int) (now : Int) :
    ∀ rs : List FaceResult, (∀ r ∈ rs, st.1 = some r.name) →
      now - st.2 < LOG_COOLDOWN → logRun st now rs = (st, []) := by
  intro rs
  induction rs with
  | nil => intro _ _; rfl
  | cons r rs ih =>
    intro hall hcool
    have h1 : st.1 = some r.name := hall r (List.mem_cons_self _ _)
    have hstep : logStep st now r.name = (st, false) := by
      rw [logStep, if_neg]
      push_neg
      exact ⟨by simp [h1], by omega⟩
    have hrest := ih (fun x hx => hall x (List.mem_cons_of_mem _ hx)) hcool
    simp [logRun, hstep, hrest]

/-- Claim C4, counterexample: with the two-identity result set `rsAB`
logged at time 0, replaying the identical result set at time 1 — inside
the 3-second cooldown — writes both rows again, because each result's
identity differs from the identity logged just before it. -/
theorem log_replay_duplicate_counterexample :
    (logRun (logRun (none, 0) 0 rsAB).1 1 rsAB).2 =
      [("Amy", 90), ("Bob", 80)] ∧
    1 - (logRun (none, 0) 0 rsAB).1.2 < LOG_COOLDOWN := by
  exact ⟨rfl, by decide⟩

/-- Claim C4, amended: an audit row is written iff the identity differs
from the last-logged identity or the elapsed time since the last log
reaches the cooldown, and the log state is updated on each write; a
result set all of whose results carry the last-logged identity, replayed
within the cooldown, writes no row.  (Result sets with several distinct
identities re-log on every replay — see the counterexample.) -/
theorem log_policy_amended (st : Option String × Int) (now : Int)
    (name : String) (rs : List FaceResult)
    (hall : ∀ r ∈ rs, st.1 = some r.name)
    (hcool : now - st.2 < LOG_COOLDOWN) :
    ((logStep st now name).2 = true ↔
      (st.1 ≠ some name ∨ LOG_COOLDOWN ≤ now - st.2)) ∧
    ((logStep st now name).2 = true →
      (logStep st now name).1 = (some name, now)) ∧
    logRun st now rs = (st, []) := by
  refine ⟨?_, ?_, logRun_no_write st now rs hall hcool⟩
  · by_cases hc : st.1 ≠ some name ∨ LOG_COOLDOWN ≤ now - st.2 <;>
      simp [logStep, hc]
  · by_cases hc : st.1 ≠ some name ∨ LOG_COOLDOWN ≤ now - st.2 <;>
      simp [logStep, hc]

/-- Witness for the amended C4 at a concrete state and result set. -/
theorem log_policy_amended_witness :
    ((logStep (some "Amy", 0) 1 "Bob").2 = true ↔
      ((some "Amy" : Option String) ≠ some "Bob" ∨
        LOG_COOLDOWN ≤ 1 - 0)) ∧
    ((logStep (some "Amy", 0) 1 "Bob").2 = true →
      (logStep (some "Amy", 0) 1 "Bob").1 = (some "Bob", 1)) ∧
    logRun (some "Amy", 0) 1 [⟨(0, 0, 1, 1), "Amy", 90⟩] =
      ((some "Amy", 0), []) :=
  log_policy_amended (some "Amy", 0) 1 "Bob" [⟨(0, 0, 1, 1), "Amy", 90⟩]
    (by intro r hr; simp at hr; rw [hr]) (by decide)

/-- Claim C6, counterexample: detect returns the two boxes `pA` and `pB`,
recognize fails only on `pA` (it succeeds on `pB`, and neither crop is
empty), yet the cycle aborts and publishes nothing — `pB` is not
processed into the result set and `pA` is not labeled "Unknown". -/
theorem recognize_failure_aborts_counterexample :
    rrFailA pB = .ok [⟨"Amy", 90⟩] ∧
    ceNever pA = false ∧ ceNever pB = false ∧
    processCycle sbId ceNever (.ok [pA, pB]) rrFailA true 0 stEmpty =
      (stEmpty, ⟨none, []⟩) := by
  exact ⟨rfl, rfl, rfl, rfl⟩

/-- Claim C6, amended: when every recognize sub-call completes (possibly
with an empty prediction list), every box with a non-empty crop is
processed and appears, in order, in the assembled result set, and a box
whose recognize response carries no prediction is labeled "Unknown"; a
recognize transport failure instead aborts the entire cycle (see the
counterexample). -/
theorem recognize_isolation_amended
    (sb : Pred → Int × Int × Int × Int) (ce : Pred → Bool)
    (recs : Pred → List RecPred) (preds : List Pred)
    (bbox : Int × Int × Int × Int) :
    processBoxes sb ce (fun p => .ok (recs p)) preds =
      .ok ((preds.filter (fun p => !ce p)).map
        (fun p => mkResult (sb p) (recs p))) ∧
    mkResult bbox [] = ⟨bbox, "Unknown", 0⟩ := by
  refine ⟨?_, rfl⟩
  induction preds with
  | nil => rfl
  | cons p ps ih =>
    by_cases hp : ce p = true
    · simp [processBoxes, hp, List.filter_cons, ih]
    · simp only [Bool.not_eq_true] at hp
      simp [processBoxes, hp, List.filter_cons, ih]

/-- Claim C8: the render loop body performs no network operation — the
remote detect and recognize calls and the actuator datagram are the
network operations, and none appears among the effects of the loop body,
whether or not a frame was captured. -/
theorem render_loop_no_network (haveFrame : Bool)
    (cached : List FaceResult) :
    (renderLoopBody haveFrame cached).all (fun e => !e.isNetwork) = true ∧
    Effect.isNetwork .remoteDetect = true ∧
    Effect.isNetwork .remoteRecognize = true ∧
    Effect.isNetwork .udpSend = true := by
  refine ⟨?_, rfl, rfl, rfl⟩
  cases haveFrame <;>
    simp [renderLoopBody, Effect.isNetwork, List.all_append, List.all_map]

lemma clamp_lb (v lo hi : Int) : lo ≤ clamp v lo hi :=
  le_max_left _ _

lemma clamp_ub (v lo hi : Int) (h : lo ≤ hi) : clamp v lo hi ≤ hi :=
  max_le h (min_le_left _ _)

/-- Claim C10: for frames of positive dimensions, the four detection box
coordinates and the four padded crop coordinates are clamped into
`[0, dimension - 1]`, and whenever the crop pipeline hands a region to the
recognize stage, that region is at least 40 pixels wide and 40 pixels
tall — recognize is never invoked on an empty or degenerate crop. -/
theorem crop_clamped_and_guarded (w h : Int) (d : Pred) (ok : Bool)
    (r : Box) (hw : 1 ≤ w) (hh : 1 ≤ h)
    (hr : processDetection w h ok d = some r) :
    (0 ≤ (boxOf w h d).x1 ∧ (boxOf w h d).x1 ≤ w - 1 ∧
     0 ≤ (boxOf w h d).y1 ∧ (boxOf w h d).y1 ≤ h - 1 ∧
     0 ≤ (boxOf w h d).x2 ∧ (boxOf w h d).x2 ≤ w - 1 ∧
     0 ≤ (boxOf w h d).y2 ∧ (boxOf w h d).y2 ≤ h - 1) ∧
    (0 ≤ (cropRegion w h d).x1 ∧ (cropRegion w h d).x1 ≤ w - 1 ∧
     0 ≤ (cropRegion w h d).y1 ∧ (cropRegion w h d).y1 ≤ h - 1 ∧
     0 ≤ (cropRegion w h d).x2 ∧ (cropRegion w h d).x2 ≤ w - 1 ∧
     0 ≤ (cropRegion w h d).y2 ∧ (cropRegion w h d).y2 ≤ h - 1) ∧
    40 ≤ r.x2 - r.x1 ∧ 40 ≤ r.y2 - r.y1 := by
  have hw1 : (0 : Int) ≤ w - 1 := by omega
  have hh1 : (0 : Int) ≤ h - 1 := by omega
  refine ⟨?_, ?_, ?_⟩
  · exact ⟨clamp_lb _ _ _, clamp_ub _ _ _ hw1, clamp_lb _ _ _,
      clamp_ub _ _ _ hh1, clamp_lb _ _ _, clamp_ub _ _ _ hw1,
      clamp_lb _ _ _, clamp_ub _ _ _ hh1⟩
  · exact ⟨clamp_lb _ _ _, clamp_ub _ _ _ hw1, clamp_lb _ _ _,
      clamp_ub _ _ _ hh1, clamp_lb _ _ _, clamp_ub _ _ _ hw1,
      clamp_lb _ _ _, clamp_ub _ _ _ hh1⟩
  · by_cases h1 : (cropRegion w h d).x2 - (cropRegion w h d).x1 ≤ 0 ∨
        (cropRegion w h d).y2 - (cropRegion w h d).y1 ≤ 0 ∨
        (cropRegion w h d).x2 - (cropRegion w h d).x1 < 40 ∨
        (cropRegion w h d).y2 - (cropRegion w h d).y1 < 40
    · rw [processDetection, if_pos h1] at hr
      exact absurd hr (by simp)
    · rw [processDetection, if_neg h1] at hr
      by_cases h2 : ok = true
      · rw [if_pos h2] at hr
        have hr2 : cropRegion w h d = r := Option.some_injective _ hr
        push_neg at h1
        rw [hr2] at h1
        exact ⟨h1.2.2.1, h1.2.2.2⟩
      · rw [if_neg h2] at hr
        exact absurd hr (by simp)

/-- Witness for C10 at a concrete frame size and detection. -/
theorem crop_clamped_and_guarded_witness :
    (0 ≤ (boxOf 640 480 ⟨100, 100, 300, 300⟩).x1 ∧
     (boxOf 640 480 ⟨100, 100, 300, 300⟩).x1 ≤ 640 - 1 ∧
     0 ≤ (boxOf 640 480 ⟨100, 100, 300, 300⟩).y1 ∧
     (boxOf 640 480 ⟨100, 100, 300, 300⟩).y1 ≤ 480 - 1 ∧
     0 ≤ (boxOf 640 480 ⟨100, 100, 300, 300⟩).x2 ∧
     (boxOf 640 480 ⟨100, 100, 300, 300⟩).x2 ≤ 640 - 1 ∧
     0 ≤ (boxOf 640 480 ⟨100, 100, 300, 300⟩).y2 ∧
     (boxOf 640 480 ⟨100, 100, 300, 300⟩).y2 ≤ 480 - 1) ∧
    (0 ≤ (cropRegion 640 480 ⟨100, 100, 300, 300⟩).x1 ∧
     (cropRegion 640 480 ⟨100, 100, 300, 300⟩).x1 ≤ 640 - 1 ∧
     0 ≤ (cropRegion 640 480 ⟨100, 100, 300, 300⟩).y1 ∧
     (cropRegion 640 480 ⟨100, 100, 300, 300⟩).y1 ≤ 480 - 1 ∧
     0 ≤ (cropRegion 640 480 ⟨100, 100, 300, 300⟩).x2 ∧
     (cropRegion 640 480 ⟨100, 100, 300, 300⟩).x2 ≤ 640 - 1 ∧
     0 ≤ (cropRegion 640 480 ⟨100, 100, 300, 300⟩).y2 ∧
     (cropRegion 640 480 ⟨100, 100, 300, 300⟩).y2 ≤ 480 - 1) ∧
    40 ≤ (⟨80, 80, 320, 320⟩ : Box).x2 - (⟨80, 80, 320, 320⟩ : Box).x1 ∧
    40 ≤ (⟨80, 80, 320, 320⟩ : Box).y2 - (⟨80, 80, 320, 320⟩ : Box).y1 :=
  crop_clamped_and_guarded 640 480 ⟨100, 100, 300, 300⟩ true
    ⟨80, 80, 320, 320⟩ (by decide) (by decide) (by decide)

/-- Witness for C3 at a concrete starting state and run length. -/
theorem actuator_debounce_witness :
    ((control_led none true true).2 = true ↔
      (none : Option Bool) ≠ some true) ∧
    ((control_led none true true).2 = true →
      (control_led none true true).1 = some true) ∧
    (ledRun none (List.replicate 4 true)).2 =
      (if (none : Option Bool) = some true then 0 else min 4 1) :=
  actuator_debounce none true 4

end FaceRec
